import Mathlib

/-!
Shallow embedding of `src/trello.py` (a Trello board helper CLI).

Python-level conventions used throughout:
  * A Python exception is modelled by `Except PyErr`.
  * HTTP effects are modelled by an `Env` of response oracles; each remote
    call additionally records an `Event` so that traces can be reasoned about.
  * `str.split()` (no argument) is modelled by `pySplit`, Python `int(...)`
    applied to a whitespace-free token by `pyIntTok?` (ASCII digits, optional
    sign, underscores between digits, as CPython accepts).
  * Dates are modelled by their proleptic Gregorian ordinal (as in
    `datetime.date.toordinal`, ordinal 1 = 0001-01-01, a Monday).
-/

deriving instance DecidableEq for Except

/-- Kinds of Python exceptions the embedded code can raise. -/
inductive PyErr
  | indexError
  | typeError
  | valueError
deriving Repr, DecidableEq

/-- ASCII whitespace recognized by Python `str.split()`. -/
def pyIsSpace (c : Char) : Bool :=
  c = ' ' || c = '\t' || c = '\n' || c = '\r' || c = '\x0b' || c = '\x0c'

/-- Split a character list on runs of whitespace, discarding empty pieces,
as Python `str.split()` does. -/
def splitWS : List Char → List (List Char)
  | [] => []
  | c :: rest =>
    if pyIsSpace c then splitWS rest
    else
      match rest with
      | [] => [[c]]
      | d :: _ =>
        if pyIsSpace d then [c] :: splitWS rest
        else
          match splitWS rest with
          | [] => [[c]]
          | t :: ts => (c :: t) :: ts

/-- Python `s.split()` on a string. -/
def pySplit (s : String) : List String :=
  (splitWS s.data).map (fun l => String.mk l)

/-- Decimal value of a digit list. -/
def digitsVal (l : List Char) : Nat :=
  l.foldl (fun acc c => acc * 10 + (c.toNat - 48)) 0

/-- No two adjacent underscores. -/
def noDoubleUS : List Char → Bool
  | '_' :: '_' :: _ => false
  | _ :: rest => noDoubleUS rest
  | [] => true

/-- The digit body of a Python integer literal: nonempty, ASCII digits with
single underscores strictly between digits (CPython grammar `\d(_?\d)*`:
first and last characters are digits, every character is a digit or an
underscore, and no two underscores are adjacent). -/
def pyNatBody (l : List Char) : Option Nat :=
  if l ≠ [] ∧ (l.headD '0').isDigit = true ∧ (l.getLastD '0').isDigit = true ∧
      (∀ c ∈ l, c.isDigit = true ∨ c = '_') ∧ noDoubleUS l = true
  then some (digitsVal (l.filter (fun c => c ≠ '_')))
  else none

/-- Python `int(tok)` for a whitespace-free token: optional sign followed by
digits (ASCII), `none` when `int` would raise `ValueError`. -/
def pyIntTok? (s : String) : Option Int :=
  match s.data with
  | [] => none
  | c :: rest =>
    if c = '+' then (pyNatBody rest).map Int.ofNat
    else if c = '-' then (pyNatBody rest).map (fun n => -(Int.ofNat n))
    else (pyNatBody (c :: rest)).map Int.ofNat

/-- A raw card as returned by the list-cards endpoint (fields `id`, `name`). -/
structure Card where
  id : String
  name : String
deriving Repr, DecidableEq

/-- A parsed ticket; `storyPoints` is the `story points` dictionary entry,
kept as a string exactly as the source stores it. -/
structure Ticket where
  id : String
  name : String
  storyPoints : String
deriving Repr, DecidableEq

/-- `TrelloAPI.parse_card_name` (trello.py lines 87-113).  A nonempty name
whose tokens are all whitespace raises `IndexError` at `cards_name[0]`. -/
def parse_card_name (card : Card) : Except PyErr Ticket :=
  if card.name = "" then .ok ⟨"", "", "0"⟩
  else
    match pySplit card.name with
    | [] => .error .indexError
    | t :: ts =>
      let points :=
        if (t :: ts).length > 1 then
          let last := (t :: ts).getLastD ""
          match pyIntTok? last with
          | some _ => last
          | none => "0"
        else "0"
      .ok ⟨card.id, t, points⟩

/-- The in-memory ticket snapshot `self.tickets`: one entry per fixed list,
`none` when that list fetch returned non-200 (`get_list_cards` returned
`None`).  Keys in source insertion order: In progress, Waiting for customer,
Testing, Done. -/
structure Snapshot where
  inProgress : Option (List Ticket)
  waiting : Option (List Ticket)
  testing : Option (List Ticket)
  done : Option (List Ticket)
deriving Repr, DecidableEq

/-- `self.tickets[list_name]` for the four valid keys. -/
def lookupList (s : Snapshot) (list_name : String) : Option (List Ticket) :=
  if list_name = "In progress" then s.inProgress
  else if list_name = "Waiting for customer" then s.waiting
  else if list_name = "Testing" then s.testing
  else s.done

/-- `chain(*self.tickets.values())`: raises `TypeError` when any value is
`None` (a failed fetch), otherwise concatenates the four lists in key order. -/
def chainValues (s : Snapshot) : Except PyErr (List Ticket) :=
  match s.inProgress, s.waiting, s.testing, s.done with
  | some a, some b, some c, some d => .ok (a ++ b ++ c ++ d)
  | _, _, _, _ => .error .typeError

/-- `TrelloAPI.get_card_id` (lines 327-334): first snapshot ticket whose name
equals `card_name`, empty string when none matches. -/
def get_card_id (s : Snapshot) (card_name : String) : Except PyErr String := do
  let all ← chainValues s
  match all.find? (fun c => c.name = card_name) with
  | some c => return c.id
  | none => return ""

/-- The shared id-resolution of `delete_card` and `update_card`:
`self.get_card_id(name) or self.get_card_id(name.split()[0])`; the retry
raises `IndexError` when `name` has no whitespace-separated token. -/
def resolve_card_id (s : Snapshot) (card_name : String) : Except PyErr String := do
  let first ← get_card_id s card_name
  if first ≠ "" then return first
  else
    match pySplit card_name with
    | [] => .error .indexError
    | t :: _ => get_card_id s t

/-- External configuration consumed by the script (the module-level constants
that are supplied outside `src/`). -/
structure Config where
  inProgressListId : String
  waitingListId : String
  testingListId : String
  doneListId : String
  jiraUrl : String
  allDoneTicketsCardId : String
deriving Repr, DecidableEq

/-- `TrelloAPI.get_list_id` (lines 336-349). -/
def get_list_id (cfg : Config) (list_name : String) : String :=
  if list_name = "In progress" then cfg.inProgressListId
  else if list_name = "Testing" then cfg.testingListId
  else if list_name = "Waiting for customer" then cfg.waitingListId
  else if list_name = "Done" then cfg.doneListId
  else ""

/-- One remote HTTP request issued by the script. -/
inductive Event
  | deleteReq (cardId : String)
  | createReq (name : String) (listId : String)
  | updateReq (cardId : String) (newName : String)
  | commentReq (text : String)
deriving Repr, DecidableEq

/-- Response oracles: the status code the remote API returns for each kind of
request the script can issue. -/
structure Env where
  deleteStatus : String → Int
  createStatus : String → String → Int
  updateStatus : String → String → Int
  commentStatus : String → Int

/-- `TrelloAPI.delete_card` (lines 115-124): resolve the id, then issue one
DELETE request and return its status code. -/
def delete_card (env : Env) (s : Snapshot) (card_name : String) :
    List Event × Except PyErr Int :=
  match resolve_card_id s card_name with
  | .error e => ([], .error e)
  | .ok card_id => ([.deleteReq card_id], .ok (env.deleteStatus card_id))

/-- `TrelloAPI.create_card` (lines 126-137): one POST request; never raises. -/
def create_card (env : Env) (cfg : Config) (card_name list_name : String) :
    List Event × Int :=
  let list_id := get_list_id cfg list_name
  ([.createReq card_name list_id], env.createStatus card_name list_id)

/-- `TrelloAPI.update_card` (lines 162-176): resolve the id as `delete_card`
does, then issue one PUT request and return its status code verbatim. -/
def update_card (env : Env) (s : Snapshot) (full_card_name new_name : String) :
    List Event × Except PyErr Int :=
  match resolve_card_id s full_card_name with
  | .error e => ([], .error e)
  | .ok card_id => ([.updateReq card_id new_name], .ok (env.updateStatus card_id new_name))

/-- The name-resolution phase of `move_card` (lines 142-153): when the id is
found, rebuild the label from the matching snapshot ticket; otherwise fall
back to the first token of the argument. -/
def move_resolved_name (s : Snapshot) (full_card_name : String) : Except PyErr String := do
  let card_id ← get_card_id s full_card_name
  if card_id ≠ "" then
    let all ← chainValues s
    match all.find? (fun c => c.id = card_id) with
    | some c => return c.name ++ " - " ++ c.storyPoints
    | none => return full_card_name
  else
    match pySplit full_card_name with
    | [] => .error .indexError
    | t :: _ => return t

/-- `TrelloAPI.move_card` (lines 139-160): delete then create under the
resolved label; 200 only when both sub-operations return 200, otherwise 400
(`and` short-circuits, so a failed delete suppresses the create request). -/
def move_card (env : Env) (cfg : Config) (s : Snapshot) (full_card_name list_name : String) :
    List Event × Except PyErr Int :=
  match move_resolved_name s full_card_name with
  | .error e => ([], .error e)
  | .ok card_name =>
    let (ev₁, r₁) := delete_card env s card_name
    match r₁ with
    | .error e => (ev₁, .error e)
    | .ok st₁ =>
      if st₁ = 200 then
        let (ev₂, st₂) := create_card env cfg card_name list_name
        (ev₁ ++ ev₂, .ok (if st₂ = 200 then 200 else 400))
      else (ev₁, .ok 400)

/-- A list-cards HTTP response: status code plus decoded JSON body. -/
structure ListResponse where
  status : Int
  cards : List Card
deriving Repr, DecidableEq

/-- `TrelloAPI.get_list_cards` (lines 26-42) applied to the response for one
list: on non-200 print a fixed message and return `None`; on 200 parse every
card name.  First component: the lines printed. -/
def get_list_cards (resp : ListResponse) :
    List String × Except PyErr (Option (List Ticket)) :=
  if resp.status ≠ 200 then
    (["Could not get list of done tickets"], .ok none)
  else
    match resp.cards.mapM parse_card_name with
    | .error e => ([], .error e)
    | .ok ts => ([], .ok (some ts))

/-- `date.weekday()` of a proleptic Gregorian ordinal (Monday = 0). -/
def weekday (o : Nat) : Nat := (o + 6) % 7

/-- Civil date (year, month, day) of an ordinal; models the proleptic
Gregorian calendar used by `datetime` (Hinnant civil-from-days, shifted so
that the input is the `datetime.date.toordinal` value). -/
def civilFromOrdinal (o : Nat) : Nat × Nat × Nat :=
  let z := o + 305
  let era := z / 146097
  let doe := z % 146097
  let yoe := (doe - doe / 1460 + doe / 36524 - doe / 146096) / 365
  let y := yoe + era * 400
  let doy := doe - (365 * yoe + yoe / 4 - yoe / 100)
  let mp := (5 * doy + 2) / 153
  let d := doy - (153 * mp + 2) / 5 + 1
  let m := if mp < 10 then mp + 3 else mp - 9
  (if m ≤ 2 then y + 1 else y, m, d)

/-- Zero-pad to two digits (`%d`, `%m`). -/
def pad2 (n : Nat) : String :=
  if n < 10 then "0" ++ toString n else toString n

/-- Zero-pad to four digits (`%Y` as CPython renders in-range years). -/
def pad4 (n : Nat) : String :=
  if n < 10 then "000" ++ toString n
  else if n < 100 then "00" ++ toString n
  else if n < 1000 then "0" ++ toString n
  else toString n

/-- `strftime("%d.%m.%Y")` of an ordinal. -/
def fmtDate (o : Nat) : String :=
  let ymd := civilFromOrdinal o
  pad2 ymd.2.2 ++ "." ++ pad2 ymd.2.1 ++ "." ++ pad4 ymd.1

/-- `TrelloAPI.get_week` (lines 191-204) with `datetime.datetime.today()`
made explicit as the ordinal `today`: the offset is
`today.weekday() or 7` (7 exactly when today is Monday). -/
def get_week (today : Nat) : String :=
  let diff := if weekday today = 0 then 7 else weekday today
  let monday := today - diff
  let friday := monday + 4
  "Неделя " ++ fmtDate monday ++ " - " ++ fmtDate friday

/-- The week header exactly as claim C2 words it: prefix "Week", offset 7 for
Monday, offset 7 for Sunday, otherwise `weekday()`. -/
def get_week_claimed (today : Nat) : String :=
  let wd := weekday today
  let diff := if wd = 0 then 7 else if wd = 6 then 7 else wd
  let monday := today - diff
  "Week " ++ fmtDate monday ++ " - " ++ fmtDate (monday + 4)

/-- One per-ticket line of `show_list_tickets` (line 85). -/
def showTicketLine (t : Ticket) : String :=
  "  - " ++ t.name ++ " - " ++ t.storyPoints ++ " points"

/-- `TrelloAPI.show_list_tickets` (lines 68-85).  First component: printed
lines (in order, up to a crash); second: normal return or raised exception
(`None[start:]` raises `TypeError` when the fetch for that list failed). -/
def show_list_tickets (s : Snapshot) (list_name : String) :
    List String × Except PyErr Unit :=
  if list_name = "In progress" ∨ list_name = "Waiting for customer" ∨
      list_name = "Testing" ∨ list_name = "Done" then
    let pre :=
      [list_name] ++
        (if list_name = "Done" then ["  - All - contains list of all done tickets"] else [])
    let start := if list_name = "Done" then 1 else 0
    match lookupList s list_name with
    | none => (pre, .error .typeError)
    | some ts => (pre ++ (ts.drop start).map showTicketLine, .ok ())
  else
    (["List " ++ list_name ++ " not found on current board"], .ok ())

/-- One per-ticket line of the letter template (line 215). -/
def templateLine (cfg : Config) (t : Ticket) : String :=
  "  - " ++ cfg.jiraUrl ++ t.name ++ " - " ++ t.storyPoints ++ " points\n"

/-- One list section of the letter template: title line plus ticket lines;
iterating `None` raises `TypeError`. -/
def renderSection (cfg : Config) (name : String) (entry : Option (List Ticket)) :
    Except PyErr (List String) :=
  match entry with
  | none => .error .typeError
  | some ts => .ok ((name ++ ":\n") :: ts.map (templateLine cfg))

/-- The literal line `template.remove` matches (line 219). -/
def sentinelLine : String :=
  "  - https://gojira.skyscanner.net/browse/All - 0 points\n"

/-- `list.remove`: drop the first occurrence, `none` when absent
(Python raises `ValueError` then). -/
def removeFirst (x : String) : List String → Option (List String)
  | [] => none
  | y :: ys => if y = x then some ys else (removeFirst x ys).map (y :: ·)

/-- Python `int(storyPoints)` summed over a ticket list, left to right;
raises `ValueError` on a non-integer story-points string. -/
def sumStoryPoints : List Ticket → Except PyErr Int
  | [] => .ok 0
  | t :: ts =>
    match pyIntTok? t.storyPoints with
    | none => .error .valueError
    | some n => (sumStoryPoints ts).map (fun m => n + m)

/-- `TrelloAPI.get_weekly_story_points` (lines 225-226) applied to the result
of its fresh `get_list_cards(DONE_LIST_ID)` call: `None[1:]` raises
`TypeError` when that fetch failed. -/
def get_weekly_story_points (doneFetch : Option (List Ticket)) : Except PyErr Int :=
  match doneFetch with
  | none => .error .typeError
  | some done => sumStoryPoints (done.drop 1)

/-- `TrelloAPI.create_letter_template` (lines 206-223); `today` is the
current ordinal and `doneRefetch` the result of the fresh Done-list fetch
made by `get_weekly_story_points` for the footer. -/
def create_letter_template (cfg : Config) (today : Nat) (s : Snapshot)
    (doneRefetch : Option (List Ticket)) : Except PyErr String := do
  let sec₁ ← renderSection cfg "In progress" s.inProgress
  let sec₂ ← renderSection cfg "Waiting for customer" s.waiting
  let sec₃ ← renderSection cfg "Testing" s.testing
  let sec₄ ← renderSection cfg "Done" s.done
  let template := (get_week today ++ ":\n\n") :: (sec₁ ++ sec₂ ++ sec₃ ++ sec₄)
  match removeFirst sentinelLine template with
  | none => .error .valueError
  | some template₂ => do
    let sp ← get_weekly_story_points doneRefetch
    return String.join (template₂ ++ ["SP per week: " ++ toString sp ++ "\n"])

/-- The spec reformulation of the template: identical assembly except that the
Done section starts at index 1 and no literal line is removed. -/
def create_letter_template_skip (cfg : Config) (today : Nat) (s : Snapshot)
    (doneRefetch : Option (List Ticket)) : Except PyErr String := do
  let sec₁ ← renderSection cfg "In progress" s.inProgress
  let sec₂ ← renderSection cfg "Waiting for customer" s.waiting
  let sec₃ ← renderSection cfg "Testing" s.testing
  let sec₄ ← renderSection cfg "Done" (s.done.map (List.drop 1))
  let template := (get_week today ++ ":\n\n") :: (sec₁ ++ sec₂ ++ sec₃ ++ sec₄)
  let sp ← get_weekly_story_points doneRefetch
  return String.join (template ++ ["SP per week: " ++ toString sp ++ "\n"])

/-- The comment text posted for one done ticket (line 236). -/
def comment_text (t : Ticket) : String := t.name ++ " - " ++ t.storyPoints

/-- The loop of `TrelloAPI.move_cards_name_to_comments` (lines 228-241) over
the tickets `self.tickets["Done"][1:]`: posts comments in order, stopping at
the first non-200 status, which it returns; 200 when all succeed. -/
def postComments (env : Env) : List Ticket → List Event × Int
  | [] => ([], 200)
  | t :: ts =>
    let st := env.commentStatus (comment_text t)
    if st ≠ 200 then ([.commentReq (comment_text t)], st)
    else
      let (evs, r) := postComments env ts
      (.commentReq (comment_text t) :: evs, r)

/-- `TrelloAPI.move_cards_name_to_comments` (lines 228-241). -/
def move_cards_name_to_comments (env : Env) (s : Snapshot) :
    List Event × Except PyErr Int :=
  match s.done with
  | none => ([], .error .typeError)
  | some done =>
    let (evs, st) := postComments env (done.drop 1)
    (evs, .ok st)

/-- The deletion loop of the `monday` branch of `run` (lines 282-286): delete
each done ticket by name, stopping at the first non-200 status; returns the
name of the failing card, or `none` when every deletion succeeded. -/
def deleteDone (env : Env) (s : Snapshot) : List Ticket → List Event × Except PyErr (Option String)
  | [] => ([], .ok none)
  | t :: ts =>
    let (ev, r) := delete_card env s t.name
    match r with
    | .error e => (ev, .error e)
    | .ok st =>
      if st ≠ 200 then (ev, .ok (some t.name))
      else
        let (evs, r₂) := deleteDone env s ts
        (ev ++ evs, r₂)

/-- Outcome of the `monday` workflow as reported on stdout. -/
inductive Outcome
  | commentsFailed
  | deleteFailed (name : String)
  | success
  | pythonError (e : PyErr)
deriving Repr, DecidableEq

/-- The `monday` branch of `TrelloAPI.run` (lines 274-288): print the letter
template, post the comments (abort on failure), then delete the done cards
(abort on first failure). -/
def run_monday (env : Env) (cfg : Config) (today : Nat) (s : Snapshot)
    (doneRefetch : Option (List Ticket)) : List Event × Outcome :=
  match create_letter_template cfg today s doneRefetch with
  | .error e => ([], .pythonError e)
  | .ok _ =>
    match s.done with
    | none => ([], .pythonError .typeError)
    | some done =>
      let (ev₁, st) := postComments env (done.drop 1)
      if st ≠ 200 then (ev₁, .commentsFailed)
      else
        let (ev₂, r) := deleteDone env s (done.drop 1)
        match r with
        | .error e => (ev₁ ++ ev₂, .pythonError e)
        | .ok (some nm) => (ev₁ ++ ev₂, .deleteFailed nm)
        | .ok none => (ev₁ ++ ev₂, .success)

/-- The week header as amended: the label word is the Russian one the source
emits, Monday is last Monday when today is Monday and otherwise today minus
`weekday()` days (so Sunday uses offset 6, reaching the Monday of the current week), and Friday is Monday plus 4 days. -/
def get_week_amended (today : Nat) : String :=
  let monday := if weekday today = 0 then today - 7 else today - weekday today
  "Неделя " ++ fmtDate monday ++ " - " ++ fmtDate (monday + 4)

/-! ## Helper lemmas about the string model -/

theorem splitWS_cons_space {c : Char} (l : List Char) (h : pyIsSpace c = true) :
    splitWS (c :: l) = splitWS l := by
  cases l <;> simp [splitWS, h]

theorem splitWS_singleton {c : Char} (h : pyIsSpace c = false) :
    splitWS [c] = [[c]] := by
  simp [splitWS, h]

theorem splitWS_cons_cons_space {c d : Char} (l : List Char)
    (hc : pyIsSpace c = false) (hd : pyIsSpace d = true) :
    splitWS (c :: d :: l) = [c] :: splitWS (d :: l) := by
  simp [splitWS, hc, hd]

theorem splitWS_cons_eq (c : Char) (l : List Char) :
    splitWS (c :: l) =
      if pyIsSpace c then splitWS l
      else
        match l with
        | [] => [[c]]
        | d :: _ =>
          if pyIsSpace d then [c] :: splitWS l
          else
            match splitWS l with
            | [] => [[c]]
            | t :: ts => (c :: t) :: ts := by
  cases l <;> rfl

theorem splitWS_cons_cons_nonspace {c d : Char} (l : List Char)
    (hc : pyIsSpace c = false) (hd : pyIsSpace d = false) {t : List Char}
    {ts : List (List Char)} (h : splitWS (d :: l) = t :: ts) :
    splitWS (c :: d :: l) = (c :: t) :: ts := by
  rw [splitWS_cons_eq]
  simp only [hc, hd, Bool.false_eq_true, if_false, h]

theorem splitWS_ne_nil :
    ∀ (l : List Char) (c : Char), pyIsSpace c = false → splitWS (c :: l) ≠ []
  | [], c, h => by simp [splitWS, h]
  | d :: rest, c, h => by
    by_cases hd : pyIsSpace d = true
    · rw [splitWS_cons_cons_space rest h hd]
      simp
    · replace hd : pyIsSpace d = false := by simpa using hd
      have hne := splitWS_ne_nil rest d hd
      cases hsw : splitWS (d :: rest) with
      | nil => exact absurd hsw hne
      | cons t ts =>
        rw [splitWS_cons_cons_nonspace rest h hd hsw]
        simp

theorem splitWS_append_space (a b : List Char) :
    splitWS (a ++ ' ' :: b) = splitWS a ++ splitWS b := by
  induction a with
  | nil => simpa using splitWS_cons_space b (by decide)
  | cons c a ih =>
    by_cases hc : pyIsSpace c = true
    · rw [List.cons_append, splitWS_cons_space _ hc, splitWS_cons_space _ hc, ih]
    · replace hc : pyIsSpace c = false := by simpa using hc
      cases a with
      | nil =>
        show splitWS (c :: ' ' :: b) = splitWS [c] ++ splitWS b
        rw [splitWS_cons_cons_space b hc (by decide), splitWS_cons_space b (by decide),
          splitWS_singleton hc]
        rfl
      | cons d a2 =>
        have ih2 : splitWS (d :: (a2 ++ ' ' :: b)) = splitWS (d :: a2) ++ splitWS b := by
          simpa using ih
        by_cases hd : pyIsSpace d = true
        · show splitWS (c :: d :: (a2 ++ ' ' :: b)) = splitWS (c :: d :: a2) ++ splitWS b
          rw [splitWS_cons_cons_space _ hc hd, splitWS_cons_cons_space _ hc hd, ih2,
            List.cons_append]
        · replace hd : pyIsSpace d = false := by simpa using hd
          have hne := splitWS_ne_nil a2 d hd
          cases hsw : splitWS (d :: a2) with
          | nil => exact absurd hsw hne
          | cons t ts =>
            have ih3 : splitWS (d :: (a2 ++ ' ' :: b)) = (t :: ts) ++ splitWS b := by
              rw [ih2, hsw]
            show splitWS (c :: d :: (a2 ++ ' ' :: b)) = splitWS (c :: d :: a2) ++ splitWS b
            rw [splitWS_cons_cons_nonspace _ hc hd ih3,
              splitWS_cons_cons_nonspace _ hc hd hsw]
            simp

theorem splitWS_all_nonspace :
    ∀ (l : List Char), l ≠ [] → (∀ c ∈ l, pyIsSpace c = false) → splitWS l = [l]
  | [], h0, _ => absurd rfl h0
  | [c], _, h => splitWS_singleton (h c (by simp))
  | c :: d :: rest, _, h => by
    have hc : pyIsSpace c = false := h c (by simp)
    have hd : pyIsSpace d = false := h d (by simp)
    have ih : splitWS (d :: rest) = [d :: rest] :=
      splitWS_all_nonspace (d :: rest) (by simp) (fun x hx => h x (by simp [hx]))
    rw [splitWS_cons_cons_nonspace rest hc hd ih]

theorem splitWS_eq_nil_iff :
    ∀ (l : List Char), splitWS l = [] ↔ ∀ c ∈ l, pyIsSpace c = true
  | [] => by simp [splitWS]
  | c :: rest => by
    by_cases hc : pyIsSpace c = true
    · rw [splitWS_cons_space rest hc, splitWS_eq_nil_iff rest]
      constructor
      · intro h x hx
        rcases List.mem_cons.mp hx with h1 | h2
        · exact h1 ▸ hc
        · exact h x h2
      · intro h x hx
        exact h x (List.mem_cons_of_mem c hx)
    · replace hc : pyIsSpace c = false := by simpa using hc
      constructor
      · intro h
        exact absurd h (splitWS_ne_nil rest c hc)
      · intro h
        exact absurd (h c (by simp)) (by simp [hc])

theorem pyIsSpace_eq_true_iff {c : Char} :
    pyIsSpace c = true ↔
      c = ' ' ∨ c = '\t' ∨ c = '\n' ∨ c = '\r' ∨ c = '\x0b' ∨ c = '\x0c' := by
  unfold pyIsSpace
  simp only [Bool.or_eq_true, decide_eq_true_eq]
  tauto

theorem digit_not_space {c : Char} (h : c.isDigit = true) : pyIsSpace c = false := by
  by_contra hc
  replace hc : pyIsSpace c = true := by simpa using hc
  rcases pyIsSpace_eq_true_iff.mp hc with h1 | h1 | h1 | h1 | h1 | h1 <;>
    (subst h1; exact absurd h (by decide))

theorem pyNatBody_charset {l : List Char} {m : Nat} (h : pyNatBody l = some m) :
    l ≠ [] ∧ ∀ c ∈ l, pyIsSpace c = false := by
  unfold pyNatBody at h
  split at h
  case isTrue hcond =>
    obtain ⟨h1, _, _, h4, _⟩ := hcond
    refine ⟨h1, fun c hc => ?_⟩
    rcases h4 c hc with hd | hu
    · exact digit_not_space hd
    · subst hu; decide
  case isFalse => simp at h

theorem pyIntTok?_token_shape {s : String} {n : Int} (h : pyIntTok? s = some n) :
    s.data ≠ [] ∧ ∀ c ∈ s.data, pyIsSpace c = false := by
  unfold pyIntTok? at h
  rcases hsd : s.data with _ | ⟨c, rest⟩
  · rw [hsd] at h
    simp at h
  · rw [hsd] at h
    dsimp only at h
    by_cases hp : c = '+'
    · rw [if_pos hp] at h
      obtain ⟨m, hm, _⟩ := Option.map_eq_some'.mp h
      obtain ⟨_, hchars⟩ := pyNatBody_charset hm
      refine ⟨by simp, fun x hx => ?_⟩
      rcases List.mem_cons.mp hx with h1 | h2
      · subst h1; subst hp; decide
      · exact hchars x h2
    · rw [if_neg hp] at h
      by_cases hmn : c = '-'
      · rw [if_pos hmn] at h
        obtain ⟨m, hm, _⟩ := Option.map_eq_some'.mp h
        obtain ⟨_, hchars⟩ := pyNatBody_charset hm
        refine ⟨by simp, fun x hx => ?_⟩
        rcases List.mem_cons.mp hx with h1 | h2
        · subst h1; subst hmn; decide
        · exact hchars x h2
      · rw [if_neg hmn] at h
        obtain ⟨m, hm, _⟩ := Option.map_eq_some'.mp h
        obtain ⟨_, hchars⟩ := pyNatBody_charset hm
        exact ⟨by simp, fun x hx => hchars x hx⟩

theorem pySplit_label (name pts : String) (h0 : pts.data ≠ [])
    (h : ∀ c ∈ pts.data, pyIsSpace c = false) :
    pySplit (name ++ " - " ++ pts) = pySplit name ++ ["-", pts] := by
  have hdata : (name ++ " - " ++ pts).data = name.data ++ ' ' :: '-' :: ' ' :: pts.data := by
    rw [String.data_append, String.data_append]
    simp
  unfold pySplit
  rw [hdata, splitWS_append_space,
    splitWS_cons_cons_space _ (by decide) (by decide),
    splitWS_cons_space _ (by decide),
    splitWS_all_nonspace pts.data h0 h]
  simp

/-! ## Claim theorems -/

/-- C1: `parse_card_name` follows the documented parsing algorithm: an empty
raw name yields the empty ticket with zero story points; otherwise the name
is split on whitespace, the ticket name is the first token, and the story
points are the last token exactly when it parses as an integer (more than
one token), and "0" otherwise. -/
theorem parse_card_name_spec (card : Card) :
    (card.name = "" → parse_card_name card = .ok ⟨"", "", "0"⟩) ∧
    (∀ t ts, pySplit card.name = t :: ts →
      parse_card_name card =
        .ok ⟨card.id, t,
          if ts = [] then "0"
          else if (pyIntTok? ((t :: ts).getLastD "")).isSome
          then (t :: ts).getLastD "" else "0"⟩) := by
  constructor
  · intro h
    unfold parse_card_name
    rw [if_pos h]
  · intro t ts hsplit
    have hne : card.name ≠ "" := by
      intro h0
      rw [h0] at hsplit
      simp [pySplit, splitWS] at hsplit
    unfold parse_card_name
    rw [if_neg hne, hsplit]
    dsimp only
    cases ts with
    | nil => simp
    | cons u us =>
      have hlen : (t :: u :: us).length > 1 := by simp
      rw [if_pos hlen, if_neg (by simp)]
      cases hopt : pyIntTok? ((t :: u :: us).getLastD "") with
      | none => simp [hopt]
      | some v => simp [hopt]

/-- Witness for C1 at concrete cards. -/
theorem parse_card_name_spec_witness :
    parse_card_name ⟨"x", "Fix-login 5"⟩ = .ok ⟨"x", "Fix-login", "5"⟩ ∧
    parse_card_name ⟨"y", ""⟩ = .ok ⟨"", "", "0"⟩ := by
  constructor
  · have h := (parse_card_name_spec ⟨"x", "Fix-login 5"⟩).2 "Fix-login" ["5"] (by decide)
    rw [h]
    rfl
  · exact (parse_card_name_spec ⟨"y", ""⟩).1 rfl

/-- C2 counterexample: on a Sunday (ordinal 739900 = 11.10.2026) the header
the code produces differs from the one the claim describes (both in the
label word and in the Sunday offset). -/
theorem get_week_claim_counterexample : get_week 739900 ≠ get_week_claimed 739900 := by
  decide

/-- C2 as amended: for every date, `get_week` produces
"Неделя <Monday> - <Friday>" with Monday = today - 7 on Mondays and
today - weekday() otherwise, and that date really is a Monday. -/
theorem get_week_spec (today : Nat) (h : 7 ≤ today) :
    get_week today = get_week_amended today ∧
    weekday (if weekday today = 0 then today - 7 else today - weekday today) = 0 := by
  have hw : weekday today < 7 := Nat.mod_lt _ (by norm_num)
  constructor
  · simp only [get_week, get_week_amended]
    by_cases h0 : weekday today = 0
    · rw [if_pos h0, if_pos h0]
    · rw [if_neg h0, if_neg h0]
  · by_cases h0 : weekday today = 0
    · rw [if_pos h0]
      unfold weekday at *
      omega
    · rw [if_neg h0]
      unfold weekday at *
      omega

/-- Witness for C2 on a concrete Monday (ordinal 739901 = 12.10.2026). -/
theorem get_week_spec_witness :
    get_week 739901 = get_week_amended 739901 ∧
    weekday (if weekday 739901 = 0 then 739901 - 7 else 739901 - weekday 739901) = 0 :=
  get_week_spec 739901 (by decide)

theorem sumStoryPoints_eq (l : List Ticket)
    (h : ∀ t ∈ l, (pyIntTok? t.storyPoints).isSome = true) :
    sumStoryPoints l = .ok ((l.map (fun t => (pyIntTok? t.storyPoints).getD 0)).sum) := by
  induction l with
  | nil => rfl
  | cons t ts ih =>
    obtain ⟨n, hn⟩ := Option.isSome_iff_exists.mp (h t (by simp))
    unfold sumStoryPoints
    rw [hn, ih (fun u hu => h u (by simp [hu]))]
    simp [hn, Except.map]

/-- C3: the weekly story-point total is the sum of the story points of the
Done tickets with index 0 excluded (whenever the stored story-point strings
are integer-parseable, as every parsed ticket satisfies). -/
theorem get_weekly_story_points_spec (done : List Ticket)
    (h : ∀ t ∈ done.drop 1, (pyIntTok? t.storyPoints).isSome = true) :
    get_weekly_story_points (some done) =
      .ok (((done.drop 1).map (fun t => (pyIntTok? t.storyPoints).getD 0)).sum) := by
  unfold get_weekly_story_points
  exact sumStoryPoints_eq _ h

/-- Witness for C3: story points [0 (sentinel), 3, 5, 2] total 10. -/
theorem get_weekly_story_points_witness :
    get_weekly_story_points
      (some [⟨"a", "All", "0"⟩, ⟨"b", "T1", "3"⟩, ⟨"c", "T2", "5"⟩, ⟨"d", "T3", "2"⟩]) =
      .ok 10 := by
  have h := get_weekly_story_points_spec
    [⟨"a", "All", "0"⟩, ⟨"b", "T1", "3"⟩, ⟨"c", "T2", "5"⟩, ⟨"d", "T3", "2"⟩] (by decide)
  rw [h]
  rfl

/-- C5: whenever the name-resolution phase succeeds and the delete
sub-operation returns a status, `move_card` returns 200 exactly when both the
delete and the create sub-operations return 200 and 400 in every other case,
discarding the failing status code. -/
theorem move_card_status_spec (env : Env) (cfg : Config) (s : Snapshot)
    (full_card_name list_name card_name : String) (st : Int)
    (hres : move_resolved_name s full_card_name = .ok card_name)
    (hdel : (delete_card env s card_name).2 = .ok st) :
    (move_card env cfg s full_card_name list_name).2 =
      .ok (if st = 200 ∧ env.createStatus card_name (get_list_id cfg list_name) = 200
           then 200 else 400) := by
  unfold move_card
  rw [hres]
  dsimp only
  cases hdc : delete_card env s card_name with
  | mk ev₁ r₁ =>
    rw [hdc] at hdel
    dsimp only at hdel
    subst hdel
    dsimp only
    by_cases h200 : st = 200
    · rw [if_pos h200]
      dsimp only [create_card]
      by_cases hcr : env.createStatus card_name (get_list_id cfg list_name) = 200
      · rw [if_pos hcr, if_pos ⟨h200, hcr⟩]
      · rw [if_neg hcr, if_neg (by tauto)]
    · rw [if_neg h200, if_neg (by tauto)]

/-- Witness for C5 at a concrete environment where the delete succeeds and
the create fails. -/
theorem move_card_status_spec_witness :
    (move_card ⟨fun _ => 200, fun _ _ => 404, fun _ _ => 200, fun _ => 200⟩
      ⟨"l1", "l2", "l3", "l4", "u", "all"⟩
      ⟨some [], some [], some [], some []⟩ "abc def" "Done").2 = .ok 400 := by
  have h := move_card_status_spec
    ⟨fun _ => 200, fun _ _ => 404, fun _ _ => 200, fun _ => 200⟩
    ⟨"l1", "l2", "l3", "l4", "u", "all"⟩
    ⟨some [], some [], some [], some []⟩ "abc def" "Done" "abc" 200
    (by decide) (by decide)
  rw [h]
  rfl

theorem getLastD_append_pair (l : List String) (a b d : String) :
    (l ++ [a, b]).getLastD d = b := by
  induction l generalizing d with
  | nil => rfl
  | cons x xs ih =>
    rw [List.cons_append, List.getLastD_cons]
    exact ih x

/-- C6: when the card id is resolved from the snapshot, `move_card` rebuilds
the label "<name> - <storyPoints>" from the matching snapshot ticket, and
parsing that label as a card name recovers exactly the original story-point
string (story points survive the delete-and-create move). -/
theorem move_card_preserves_story_points (s : Snapshot) (full_card_name : String)
    (all : List Ticket) (cid : String) (t : Ticket)
    (hall : chainValues s = .ok all)
    (hgci : get_card_id s full_card_name = .ok cid)
    (hcid : cid ≠ "")
    (hfind : all.find? (fun c => c.id = cid) = some t)
    (hsp : (pyIntTok? t.storyPoints).isSome = true) :
    move_resolved_name s full_card_name = .ok (t.name ++ " - " ++ t.storyPoints) ∧
    ∀ newId : String,
      (parse_card_name ⟨newId, t.name ++ " - " ++ t.storyPoints⟩).map Ticket.storyPoints =
        .ok t.storyPoints := by
  obtain ⟨n, hn⟩ := Option.isSome_iff_exists.mp hsp
  obtain ⟨hpts_ne, hpts_chars⟩ := pyIntTok?_token_shape hn
  constructor
  · unfold move_resolved_name
    rw [hgci]
    simp only [bind, Except.bind]
    rw [if_pos hcid, hall]
    simp only [hfind]
    rfl
  · intro newId
    have hsplit : pySplit (t.name ++ " - " ++ t.storyPoints) =
        pySplit t.name ++ ["-", t.storyPoints] :=
      pySplit_label t.name t.storyPoints hpts_ne hpts_chars
    have hlabel_ne : (t.name ++ " - " ++ t.storyPoints) ≠ "" := by
      intro h0
      have : (t.name ++ " - " ++ t.storyPoints).data = [] := by rw [h0]
      rw [String.data_append, String.data_append] at this
      simp at this
    unfold parse_card_name
    rw [if_neg hlabel_ne, hsplit]
    cases hsl : pySplit t.name ++ ["-", t.storyPoints] with
    | nil => simp at hsl
    | cons tok toks =>
      dsimp only
      have hlen : (tok :: toks).length > 1 := by
        have : (pySplit t.name ++ ["-", t.storyPoints]).length ≥ 2 := by
          simp
        rw [hsl] at this
        simpa using this
      rw [if_pos hlen]
      have hlast : (tok :: toks).getLastD "" = t.storyPoints := by
        rw [← hsl]
        exact getLastD_append_pair _ _ _ _
      rw [hlast, hn]
      rfl

/-- Witness for C6: moving "Fix" (story points "5") rebuilds "Fix - 5" and
parsing it recovers "5". -/
theorem move_card_preserves_story_points_witness :
    move_resolved_name
        ⟨some [], some [], some [], some [⟨"s", "All", "0"⟩, ⟨"id1", "Fix", "5"⟩]⟩ "Fix" =
      .ok ("Fix" ++ " - " ++ "5") ∧
    (parse_card_name ⟨"new", "Fix" ++ " - " ++ "5"⟩).map Ticket.storyPoints = .ok "5" := by
  have h := move_card_preserves_story_points
    ⟨some [], some [], some [], some [⟨"s", "All", "0"⟩, ⟨"id1", "Fix", "5"⟩]⟩ "Fix"
    [⟨"s", "All", "0"⟩, ⟨"id1", "Fix", "5"⟩] "id1" ⟨"id1", "Fix", "5"⟩
    (by decide) (by decide) (by decide) (by decide) (by decide)
  exact ⟨h.1, h.2 "new"⟩

/-- C8: a non-200 list-cards response yields the fixed failure message and
absence (no ticket sequence, no exception); a 200 response yields the parsed
ticket sequence. -/
theorem get_list_cards_spec (resp : ListResponse) :
    (resp.status ≠ 200 →
      get_list_cards resp = (["Could not get list of done tickets"], .ok none)) ∧
    (∀ ts, resp.status = 200 → resp.cards.mapM parse_card_name = .ok ts →
      get_list_cards resp = ([], .ok (some ts))) := by
  constructor
  · intro h
    unfold get_list_cards
    rw [if_pos h]
  · intro ts h200 hp
    unfold get_list_cards
    rw [if_neg (by simp [h200]), hp]

/-- Witness for C8: a 404 response and a 200 response with one card. -/
theorem get_list_cards_spec_witness :
    get_list_cards ⟨404, [⟨"i", "A 3"⟩]⟩ =
      (["Could not get list of done tickets"], .ok none) ∧
    get_list_cards ⟨200, [⟨"i", "A 3"⟩]⟩ = ([], .ok (some [⟨"i", "A", "3"⟩])) :=
  ⟨(get_list_cards_spec ⟨404, [⟨"i", "A 3"⟩]⟩).1 (by decide),
   (get_list_cards_spec ⟨200, [⟨"i", "A 3"⟩]⟩).2 [⟨"i", "A", "3"⟩] rfl (by decide)⟩

/-- C10: when exact-name resolution finds no id and the card name has no
whitespace-separated token, `delete_card` and `update_card` raise IndexError
before issuing any request (and such names are exactly the all-whitespace
ones, the empty string included). -/
theorem delete_update_card_indexError (env : Env) (s : Snapshot)
    (card_name new_name : String)
    (hres : get_card_id s card_name = .ok "")
    (htok : pySplit card_name = []) :
    delete_card env s card_name = ([], .error .indexError) ∧
    update_card env s card_name new_name = ([], .error .indexError) ∧
    (∀ c ∈ card_name.data, pyIsSpace c = true) := by
  have hr : resolve_card_id s card_name = .error .indexError := by
    unfold resolve_card_id
    rw [hres]
    simp only [bind, Except.bind]
    rw [if_neg (by simp), htok]
  refine ⟨?_, ?_, ?_⟩
  · unfold delete_card
    rw [hr]
  · unfold update_card
    rw [hr]
  · have : splitWS card_name.data = [] := by
      have := htok
      unfold pySplit at this
      exact List.map_eq_nil_iff.mp this
    exact (splitWS_eq_nil_iff card_name.data).mp this

/-- Witness for C10 on the one-space card name. -/
theorem delete_update_card_indexError_witness :
    delete_card ⟨fun _ => 200, fun _ _ => 200, fun _ _ => 200, fun _ => 200⟩
        ⟨some [], some [], some [], some []⟩ " " = ([], .error .indexError) ∧
    update_card ⟨fun _ => 200, fun _ _ => 200, fun _ _ => 200, fun _ => 200⟩
        ⟨some [], some [], some [], some []⟩ " " "New" = ([], .error .indexError) ∧
    (∀ c ∈ (" " : String).data, pyIsSpace c = true) :=
  delete_update_card_indexError
    ⟨fun _ => 200, fun _ _ => 200, fun _ _ => 200, fun _ => 200⟩
    ⟨some [], some [], some [], some []⟩ " " "New" (by decide) (by decide)

/-- C9 counterexample: with the Done fetch failed (absent), showing the Done
list, building the report and computing the weekly total all raise TypeError
instead of degrading. -/
theorem absent_list_claim_counterexample :
    (show_list_tickets ⟨some [], some [], some [], none⟩ "Done").2 = .error .typeError ∧
    create_letter_template ⟨"a", "b", "c", "d", "u", "all"⟩ 739900
        ⟨some [], some [], some [], none⟩ none = .error .typeError ∧
    get_weekly_story_points none = .error .typeError := by
  refine ⟨by decide, ?_, by decide⟩
  decide

/-- C9 as amended: when a fetch for a list failed (its snapshot entry is
absent), the consuming operations raise TypeError: showing that list crashes,
building the report crashes as soon as any list is absent, and the weekly
total crashes when the Done refetch failed. -/
theorem absent_list_crashes (s : Snapshot) (cfg : Config) (today : Nat)
    (refetch : Option (List Ticket)) (list_name : String) :
    ((list_name = "In progress" ∨ list_name = "Waiting for customer" ∨
        list_name = "Testing" ∨ list_name = "Done") →
      lookupList s list_name = none →
      (show_list_tickets s list_name).2 = .error .typeError) ∧
    ((s.inProgress = none ∨ s.waiting = none ∨ s.testing = none ∨ s.done = none) →
      create_letter_template cfg today s refetch = .error .typeError) ∧
    (refetch = none → get_weekly_story_points refetch = .error .typeError) := by
  refine ⟨?_, ?_, ?_⟩
  · intro hv hl
    unfold show_list_tickets
    rw [if_pos hv, hl]
  · intro habs
    cases hip : s.inProgress with
    | none =>
      simp [create_letter_template, renderSection, hip, bind, Except.bind]
    | some l1 =>
      cases hw : s.waiting with
      | none =>
        simp [create_letter_template, renderSection, hip, hw, bind, Except.bind]
      | some l2 =>
        cases ht : s.testing with
        | none =>
          simp [create_letter_template, renderSection, hip, hw, ht, bind, Except.bind]
        | some l3 =>
          cases hd : s.done with
          | none =>
            simp [create_letter_template, renderSection, hip, hw, ht, hd, bind, Except.bind]
          | some l4 =>
            rcases habs with h | h | h | h <;>
              first
                | exact absurd (hip ▸ h) (by simp)
                | exact absurd (hw ▸ h) (by simp)
                | exact absurd (ht ▸ h) (by simp)
                | exact absurd (hd ▸ h) (by simp)
  · intro h
    subst h
    rfl

/-- Witness for C9 with the In progress fetch failed. -/
theorem absent_list_crashes_witness :
    (show_list_tickets ⟨none, some [], some [], some []⟩ "In progress").2 =
      .error .typeError ∧
    create_letter_template ⟨"a", "b", "c", "d", "u", "all"⟩ 1
        ⟨none, some [], some [], some []⟩ none = .error .typeError ∧
    get_weekly_story_points (none : Option (List Ticket)) = .error .typeError := by
  have h := absent_list_crashes ⟨none, some [], some [], some []⟩
    ⟨"a", "b", "c", "d", "u", "all"⟩ 1 none "In progress"
  exact ⟨h.1 (Or.inl rfl) rfl, h.2.1 (Or.inl rfl), h.2.2 rfl⟩

theorem removeFirst_cons_eq (x : String) (l : List String) :
    removeFirst x (x :: l) = some l := by
  simp [removeFirst]

theorem removeFirst_cons_ne {x y : String} (l : List String) (h : y ≠ x) :
    removeFirst x (y :: l) = (removeFirst x l).map (y :: ·) := by
  simp [removeFirst, h]

theorem removeFirst_append_not_mem {x : String} (l m : List String) (h : x ∉ l) :
    removeFirst x (l ++ m) = (removeFirst x m).map (l ++ ·) := by
  induction l with
  | nil =>
    rw [List.nil_append]
    cases removeFirst x m <;> simp
  | cons y ys ih =>
    have hy : y ≠ x := by
      intro h0
      exact h (h0 ▸ List.mem_cons_self y ys)
    rw [List.cons_append, removeFirst_cons_ne _ hy,
      ih (fun hm => h (List.mem_cons_of_mem y hm))]
    cases removeFirst x m <;> simp

theorem header_ne_sentinel (n : Nat) : get_week n ++ ":\n\n" ≠ sentinelLine := by
  intro h
  have hd := congrArg String.data h
  rw [String.data_append] at hd
  have hrev := congrArg List.reverse hd
  rw [List.reverse_append] at hrev
  have e1 : ((":\n\n" : String).data).reverse = ['\n', '\n', ':'] := by decide
  rw [e1] at hrev
  have e2 : sentinelLine.data.reverse[1]? = some 's' := by decide
  rw [← hrev] at e2
  simp at e2

/-- C7 as amended: removing the one literal sentinel line is equivalent to
skipping index 0 of the Done list provided the head Done ticket actually
renders as that literal line and no ticket of the three earlier lists
renders identically. -/
theorem create_letter_template_skip_equiv (cfg : Config) (today : Nat) (s : Snapshot)
    (refetch : Option (List Ticket)) (l1 l2 l3 dtail : List Ticket) (d0 : Ticket)
    (h1 : s.inProgress = some l1) (h2 : s.waiting = some l2) (h3 : s.testing = some l3)
    (h4 : s.done = some (d0 :: dtail))
    (hd0 : templateLine cfg d0 = sentinelLine)
    (hnot : sentinelLine ∉ (l1 ++ l2 ++ l3).map (templateLine cfg)) :
    create_letter_template cfg today s refetch =
      create_letter_template_skip cfg today s refetch := by
  have hm123 : ∀ x ∈ (l1.map (templateLine cfg) ++ l2.map (templateLine cfg) ++
      l3.map (templateLine cfg)), x ∈ (l1 ++ l2 ++ l3).map (templateLine cfg) := by
    intro x hx
    simpa [List.map_append] using hx
  have hx1 : sentinelLine ∉ ("In progress:\n" :: l1.map (templateLine cfg)) := by
    intro hm
    rcases List.mem_cons.mp hm with h0 | h0
    · exact absurd h0 (by decide)
    · exact hnot (hm123 _ (by simp [h0]))
  have hx2 : sentinelLine ∉ ("Waiting for customer:\n" :: l2.map (templateLine cfg)) := by
    intro hm
    rcases List.mem_cons.mp hm with h0 | h0
    · exact absurd h0 (by decide)
    · exact hnot (hm123 _ (by simp [h0]))
  have hx3 : sentinelLine ∉ ("Testing:\n" :: l3.map (templateLine cfg)) := by
    intro hm
    rcases List.mem_cons.mp hm with h0 | h0
    · exact absurd h0 (by decide)
    · exact hnot (hm123 _ (by simp [h0]))
  have hpre : sentinelLine ∉
      (("In progress:\n" :: l1.map (templateLine cfg)) ++
        ("Waiting for customer:\n" :: l2.map (templateLine cfg))) ++
        ("Testing:\n" :: l3.map (templateLine cfg)) := by
    intro hm
    rcases List.mem_append.mp hm with hm' | hm'
    · rcases List.mem_append.mp hm' with hm'' | hm''
      · exact hx1 hm''
      · exact hx2 hm''
    · exact hx3 hm'
  have hrm := removeFirst_append_not_mem
    ((("In progress:\n" :: l1.map (templateLine cfg)) ++
        ("Waiting for customer:\n" :: l2.map (templateLine cfg))) ++
        ("Testing:\n" :: l3.map (templateLine cfg)))
    ("Done:\n" :: sentinelLine :: dtail.map (templateLine cfg)) hpre
  rw [removeFirst_cons_ne _ (by decide : ("Done:\n" : String) ≠ sentinelLine),
    removeFirst_cons_eq, Option.map_some', Option.map_some'] at hrm
  have hfull := removeFirst_cons_ne
    ((("In progress:\n" :: l1.map (templateLine cfg)) ++
        ("Waiting for customer:\n" :: l2.map (templateLine cfg))) ++
        ("Testing:\n" :: l3.map (templateLine cfg)) ++
        ("Done:\n" :: sentinelLine :: dtail.map (templateLine cfg)))
    (header_ne_sentinel today)
  rw [hrm, Option.map_some'] at hfull
  unfold create_letter_template create_letter_template_skip
  rw [h1, h2, h3, h4]
  simp only [renderSection, Option.map_some', bind, Except.bind, List.drop_succ_cons,
    List.drop_nil, List.drop_zero, List.map_cons, hd0]
  rw [(by decide : ("In progress" ++ ":\n" : String) = "In progress:\n"),
    (by decide : ("Waiting for customer" ++ ":\n" : String) = "Waiting for customer:\n"),
    (by decide : ("Testing" ++ ":\n" : String) = "Testing:\n"),
    (by decide : ("Done" ++ ":\n" : String) = "Done:\n")]
  rw [hfull]

/-- C7 counterexample: when an In progress ticket also renders as the literal
sentinel line, literal removal deletes that line instead of the Done sentinel,
so the two formulations disagree. -/
theorem template_equiv_counterexample :
    create_letter_template
        ⟨"a", "b", "c", "d", "https://gojira.skyscanner.net/browse/", "all"⟩ 800
        ⟨some [⟨"i", "All", "0"⟩], some [], some [],
          some [⟨"d", "All", "0"⟩, ⟨"e", "T", "3"⟩]⟩
        (some [⟨"d", "All", "0"⟩, ⟨"e", "T", "3"⟩]) ≠
      create_letter_template_skip
        ⟨"a", "b", "c", "d", "https://gojira.skyscanner.net/browse/", "all"⟩ 800
        ⟨some [⟨"i", "All", "0"⟩], some [], some [],
          some [⟨"d", "All", "0"⟩, ⟨"e", "T", "3"⟩]⟩
        (some [⟨"d", "All", "0"⟩, ⟨"e", "T", "3"⟩]) := by
  decide

/-- Witness for C7 on a snapshot satisfying the amended side conditions. -/
theorem create_letter_template_skip_equiv_witness :
    create_letter_template
        ⟨"a", "b", "c", "d", "https://gojira.skyscanner.net/browse/", "all"⟩ 800
        ⟨some [⟨"i", "X", "2"⟩], some [], some [],
          some [⟨"d", "All", "0"⟩, ⟨"e", "T", "3"⟩]⟩
        (some [⟨"d", "All", "0"⟩, ⟨"e", "T", "3"⟩]) =
      create_letter_template_skip
        ⟨"a", "b", "c", "d", "https://gojira.skyscanner.net/browse/", "all"⟩ 800
        ⟨some [⟨"i", "X", "2"⟩], some [], some [],
          some [⟨"d", "All", "0"⟩, ⟨"e", "T", "3"⟩]⟩
        (some [⟨"d", "All", "0"⟩, ⟨"e", "T", "3"⟩]) :=
  create_letter_template_skip_equiv
    ⟨"a", "b", "c", "d", "https://gojira.skyscanner.net/browse/", "all"⟩ 800
    ⟨some [⟨"i", "X", "2"⟩], some [], some [],
      some [⟨"d", "All", "0"⟩, ⟨"e", "T", "3"⟩]⟩
    (some [⟨"d", "All", "0"⟩, ⟨"e", "T", "3"⟩])
    [⟨"i", "X", "2"⟩] [] [] [⟨"e", "T", "3"⟩] ⟨"d", "All", "0"⟩
    rfl rfl rfl rfl (by decide) (by decide)

theorem postComments_all_ok (env : Env) (l : List Ticket)
    (h : ∀ u ∈ l, env.commentStatus (comment_text u) = 200) :
    postComments env l = (l.map (fun u => Event.commentReq (comment_text u)), 200) := by
  induction l with
  | nil => rfl
  | cons t ts ih =>
    have ht := h t (List.mem_cons_self t ts)
    have ih2 := ih (fun u hu => h u (List.mem_cons_of_mem t hu))
    unfold postComments
    rw [ht, ih2]
    simp

theorem postComments_first_fail (env : Env) (pre : List Ticket) (t : Ticket)
    (rest : List Ticket)
    (hpre : ∀ u ∈ pre, env.commentStatus (comment_text u) = 200)
    (ht : env.commentStatus (comment_text t) ≠ 200) :
    postComments env (pre ++ t :: rest) =
      (pre.map (fun u => Event.commentReq (comment_text u)) ++
        [.commentReq (comment_text t)], env.commentStatus (comment_text t)) := by
  induction pre with
  | nil =>
    unfold postComments
    simp [ht]
  | cons u us ih =>
    have hu := hpre u (List.mem_cons_self u us)
    have ih2 := ih (fun v hv => hpre v (List.mem_cons_of_mem u hv))
    rw [List.cons_append]
    unfold postComments
    rw [hu, ih2]
    simp

theorem postComments_eq_200_iff (env : Env) (l : List Ticket) :
    (postComments env l).2 = 200 ↔
      ∀ u ∈ l, env.commentStatus (comment_text u) = 200 := by
  induction l with
  | nil => simp [postComments]
  | cons t ts ih =>
    by_cases ht : env.commentStatus (comment_text t) = 200
    · unfold postComments
      rw [ht]
      cases hpc : postComments env ts with
      | mk evs r =>
        rw [hpc] at ih
        simp only [ne_eq, not_true_eq_false, if_false, ite_false] at *
        constructor
        · intro hr u hu
          rcases List.mem_cons.mp hu with h0 | h0
          · exact h0 ▸ ht
          · exact (ih.mp (by simpa using hr)) u h0
        · intro hall
          simpa using ih.mpr (fun u hu => hall u (List.mem_cons_of_mem t hu))
    · unfold postComments
      constructor
      · intro hr
        exfalso
        simp only [if_pos ht] at hr
        exact ht (by simpa using hr)
      · intro hall
        exact absurd (hall t (List.mem_cons_self t ts)) ht

theorem deleteDone_all_ok (env : Env) (s : Snapshot) (l : List Ticket)
    (h : ∀ u ∈ l, (delete_card env s u.name).2 = .ok 200) :
    deleteDone env s l =
      ((l.map (fun u => (delete_card env s u.name).1)).flatten, .ok none) := by
  induction l with
  | nil => rfl
  | cons t ts ih =>
    have ht := h t (List.mem_cons_self t ts)
    have ih2 := ih (fun u hu => h u (List.mem_cons_of_mem t hu))
    unfold deleteDone
    cases hdc : delete_card env s t.name with
    | mk ev r =>
      rw [hdc] at ht
      dsimp only at ht
      subst ht
      rw [ih2]
      simp [hdc]

theorem deleteDone_first_fail (env : Env) (s : Snapshot) (pre : List Ticket)
    (t : Ticket) (rest : List Ticket) (st : Int)
    (hpre : ∀ u ∈ pre, (delete_card env s u.name).2 = .ok 200)
    (ht : (delete_card env s t.name).2 = .ok st) (hst : st ≠ 200) :
    deleteDone env s (pre ++ t :: rest) =
      ((pre.map (fun u => (delete_card env s u.name).1)).flatten ++
        (delete_card env s t.name).1, .ok (some t.name)) := by
  induction pre with
  | nil =>
    rw [List.nil_append]
    unfold deleteDone
    cases hdc : delete_card env s t.name with
    | mk ev r =>
      rw [hdc] at ht
      dsimp only at ht
      subst ht
      simp [hst]
  | cons u us ih =>
    have hu := hpre u (List.mem_cons_self u us)
    have ih2 := ih (fun v hv => hpre v (List.mem_cons_of_mem u hv))
    rw [List.cons_append]
    unfold deleteDone
    cases hdc : delete_card env s u.name with
    | mk ev r =>
      rw [hdc] at hu
      dsimp only at hu
      subst hu
      rw [ih2]
      simp [hdc]

theorem deleteDone_ok_none_iff (env : Env) (s : Snapshot) (l : List Ticket) :
    (deleteDone env s l).2 = .ok none ↔
      ∀ u ∈ l, (delete_card env s u.name).2 = .ok 200 := by
  induction l with
  | nil => simp [deleteDone]
  | cons t ts ih =>
    unfold deleteDone
    cases hdc : delete_card env s t.name with
    | mk ev r =>
      cases r with
      | error e =>
        simp only []
        constructor
        · intro hr
          exact absurd hr (by simp)
        · intro hall
          have := hall t (List.mem_cons_self t ts)
          rw [hdc] at this
          simp at this
      | ok st =>
        by_cases hst : st = 200
        · subst hst
          cases hdd : deleteDone env s ts with
          | mk evs r2 =>
            rw [hdd] at ih
            simp only [ne_eq, not_true_eq_false, if_false, ite_false]
            constructor
            · intro hr u hu
              rcases List.mem_cons.mp hu with h0 | h0
              · rw [h0, hdc]
              · exact (ih.mp (by simpa using hr)) u h0
            · intro hall
              simpa using ih.mpr (fun u hu => hall u (List.mem_cons_of_mem t hu))
        · simp only [if_pos hst]
          constructor
          · intro hr
            exact absurd hr (by simp)
          · intro hall
            have := hall t (List.mem_cons_self t ts)
            rw [hdc] at this
            simp at this
            exact absurd this hst

/-- C4: in the monday rollover, a failing comment post aborts the run before
any delete request is issued (the trace holds exactly the comments already
posted, which are never rolled back) and the reported failure names the
comment step; deletions stop at the first failing deletion; and success is
reported exactly when every comment and every deletion returned 200. -/
theorem run_monday_spec (env : Env) (cfg : Config) (today : Nat) (s : Snapshot)
    (refetch : Option (List Ticket)) (done : List Ticket)
    (htmpl : (create_letter_template cfg today s refetch).isOk = true)
    (hdone : s.done = some done) :
    (∀ pre t rest, done.drop 1 = pre ++ t :: rest →
        (∀ u ∈ pre, env.commentStatus (comment_text u) = 200) →
        env.commentStatus (comment_text t) ≠ 200 →
        run_monday env cfg today s refetch =
          (pre.map (fun u => Event.commentReq (comment_text u)) ++
            [.commentReq (comment_text t)], .commentsFailed)) ∧
    (∀ pre t rest st, done.drop 1 = pre ++ t :: rest →
        (∀ u ∈ done.drop 1, env.commentStatus (comment_text u) = 200) →
        (∀ u ∈ pre, (delete_card env s u.name).2 = .ok 200) →
        (delete_card env s t.name).2 = .ok st → st ≠ 200 →
        run_monday env cfg today s refetch =
          ((done.drop 1).map (fun u => Event.commentReq (comment_text u)) ++
            ((pre.map (fun u => (delete_card env s u.name).1)).flatten ++
              (delete_card env s t.name).1), .deleteFailed t.name)) ∧
    ((run_monday env cfg today s refetch).2 = .success ↔
      (∀ u ∈ done.drop 1, env.commentStatus (comment_text u) = 200) ∧
      (∀ u ∈ done.drop 1, (delete_card env s u.name).2 = .ok 200)) := by
  obtain ⟨tmpl, hct⟩ : ∃ tmpl, create_letter_template cfg today s refetch = .ok tmpl := by
    cases hc : create_letter_template cfg today s refetch with
    | error e => rw [hc] at htmpl; simp [Except.isOk, Except.toBool] at htmpl
    | ok v => exact ⟨v, rfl⟩
  refine ⟨?_, ?_, ?_⟩
  · intro pre t rest hsplit hpre ht
    unfold run_monday
    rw [hct, hdone]
    dsimp only
    rw [hsplit, postComments_first_fail env pre t rest hpre ht]
    dsimp only
    rw [if_pos ht]
  · intro pre t rest st hsplit hall hpredel hdel hst
    unfold run_monday
    rw [hct, hdone]
    dsimp only
    rw [postComments_all_ok env _ hall]
    dsimp only
    rw [if_neg (by simp), hsplit,
      deleteDone_first_fail env s pre t rest st hpredel hdel hst]
  · unfold run_monday
    rw [hct, hdone]
    dsimp only
    by_cases hall : ∀ u ∈ done.drop 1, env.commentStatus (comment_text u) = 200
    · rw [postComments_all_ok env _ hall]
      dsimp only
      rw [if_neg (by simp)]
      cases hdd : deleteDone env s (done.drop 1) with
      | mk ev₂ r =>
        have hiff := deleteDone_ok_none_iff env s (done.drop 1)
        rw [hdd] at hiff
        dsimp only at hiff
        cases r with
        | error e =>
          dsimp only
          constructor
          · intro hcontr
            simp at hcontr
          · intro hrhs
            have := hiff.mpr hrhs.2
            simp at this
        | ok o =>
          cases o with
          | none =>
            dsimp only
            exact iff_of_true rfl ⟨hall, hiff.mp rfl⟩
          | some nm =>
            dsimp only
            constructor
            · intro hcontr
              simp at hcontr
            · intro hrhs
              have := hiff.mpr hrhs.2
              simp at this
    · have hne : (postComments env (done.drop 1)).2 ≠ 200 := by
        intro h200
        exact hall ((postComments_eq_200_iff env _).mp h200)
      cases hpc : postComments env (done.drop 1) with
      | mk ev₁ st =>
        rw [hpc] at hne
        dsimp only at hne
        dsimp only
        rw [if_pos hne]
        constructor
        · intro hcontr
          simp at hcontr
        · intro hrhs
          exact absurd hrhs.1 hall

/-- Witness for C4: the comment on the second of three done tickets fails, so
the run stops with only the two comment requests issued and no deletion. -/
theorem run_monday_spec_witness :
    run_monday
      ⟨fun _ => 200, fun _ _ => 200, fun _ _ => 200,
        fun txt => if txt = "T2 - 5" then 500 else 200⟩
      ⟨"a", "b", "c", "d", "https://gojira.skyscanner.net/browse/", "all"⟩ 800
      ⟨some [], some [], some [],
        some [⟨"z", "All", "0"⟩, ⟨"b", "T1", "3"⟩, ⟨"c", "T2", "5"⟩, ⟨"d", "T3", "2"⟩]⟩
      (some [⟨"z", "All", "0"⟩, ⟨"b", "T1", "3"⟩, ⟨"c", "T2", "5"⟩, ⟨"d", "T3", "2"⟩]) =
      ([.commentReq "T1 - 3", .commentReq "T2 - 5"], .commentsFailed) := by
  have h := (run_monday_spec
    ⟨fun _ => 200, fun _ _ => 200, fun _ _ => 200,
      fun txt => if txt = "T2 - 5" then 500 else 200⟩
    ⟨"a", "b", "c", "d", "https://gojira.skyscanner.net/browse/", "all"⟩ 800
    ⟨some [], some [], some [],
      some [⟨"z", "All", "0"⟩, ⟨"b", "T1", "3"⟩, ⟨"c", "T2", "5"⟩, ⟨"d", "T3", "2"⟩]⟩
    (some [⟨"z", "All", "0"⟩, ⟨"b", "T1", "3"⟩, ⟨"c", "T2", "5"⟩, ⟨"d", "T3", "2"⟩])
    [⟨"z", "All", "0"⟩, ⟨"b", "T1", "3"⟩, ⟨"c", "T2", "5"⟩, ⟨"d", "T3", "2"⟩]
    (by decide) rfl).1
    [⟨"b", "T1", "3"⟩] ⟨"c", "T2", "5"⟩ [⟨"d", "T3", "2"⟩]
    (by decide) (by decide) (by decide)
  exact h.trans (by decide)

/-- C5 counterexample: on the empty card name with no snapshot match,
`move_card` raises IndexError during name resolution, returning neither 200
nor the claimed generic 400. -/
theorem move_card_claim_counterexample :
    (move_card ⟨fun _ => 200, fun _ _ => 200, fun _ _ => 200, fun _ => 200⟩
        ⟨"l1", "l2", "l3", "l4", "u", "all"⟩
        ⟨some [], some [], some [], some []⟩ "" "Done").2 ≠ .ok 400 ∧
    (move_card ⟨fun _ => 200, fun _ _ => 200, fun _ _ => 200, fun _ => 200⟩
        ⟨"l1", "l2", "l3", "l4", "u", "all"⟩
        ⟨some [], some [], some [], some []⟩ "" "Done").2 ≠ .ok 200 ∧
    (move_card ⟨fun _ => 200, fun _ _ => 200, fun _ _ => 200, fun _ => 200⟩
        ⟨"l1", "l2", "l3", "l4", "u", "all"⟩
        ⟨some [], some [], some [], some []⟩ "" "Done").2 = .error .indexError := by
  refine ⟨by decide, by decide, by decide⟩
